import Mathlib

/-!
Verification of the whistler bot (`whistler/bot.py`).

This file gives a shallow embedding of the command-dispatch and
room-membership logic of `WhistlerBot` and proves properties of it.
Python strings become Lean `String`, Python dicts become association
lists with a first-match lookup, XMPP stanzas sent through the protocol
client are collected in output lists, and Python runtime exceptions
(`NameError`, `IndexError`, `KeyError`) are made explicit through an
error type, since several code paths of the source raise them.
-/

set_option autoImplicit false

namespace Whistler

/-! ## String helpers

Python `str.split()` (no argument) splits on runs of whitespace and
drops empty pieces; `str.split('@')` splits at every separator keeping
empty pieces.  Both are modelled structurally over the character data
so they compute by kernel reduction. -/

/-- Whitespace test used by Python `str.split()`. -/
def isWS (c : Char) : Bool :=
  c == ' ' || c == '\t' || c == '\n' || c == '\r'

/-- Accumulating worker for `splitWS`. -/
def splitWSAux : List Char → List Char → List (List Char)
  | [], acc => if acc = [] then [] else [acc.reverse]
  | c :: cs, acc =>
    if isWS c then
      if acc = [] then splitWSAux cs [] else acc.reverse :: splitWSAux cs []
    else
      splitWSAux cs (c :: acc)

/-- Model of Python `body.split()`: whitespace-delimited tokens, no empties. -/
def splitWS (s : String) : List String :=
  (splitWSAux s.data []).map String.mk

/-- Accumulating worker for `splitChar`. -/
def splitCharAux (sep : Char) : List Char → List Char → List String
  | [], acc => [String.mk acc.reverse]
  | c :: cs, acc =>
    if c = sep then String.mk acc.reverse :: splitCharAux sep cs []
    else splitCharAux sep cs (c :: acc)

/-- Model of Python `s.split(sep)` for a single separator character. -/
def splitChar (sep : Char) (s : String) : List String :=
  splitCharAux sep s.data []

/-- Decide whether the first list is an initial segment of the second. -/
def listPrefixEq : List Char → List Char → Bool
  | [], _ => true
  | _ :: _, [] => false
  | a :: as, b :: bs => a == b && listPrefixEq as bs

/-- Model of Python `s.startswith(p)`. -/
def strStarts (s p : String) : Bool :=
  listPrefixEq p.data s.data

/-! ## Data model -/

/-- An XMPP address: node@domain/resource (`xmpp.JID`). -/
structure JID where
  node : String
  domain : String
  resource : String
deriving DecidableEq, Repr

/-- Bare address, `"%s@%s" % (getNode(), getDomain())`. -/
def JID.bare (j : JID) : String := j.node ++ "@" ++ j.domain

/-- A child element of a stanza, as consulted by `handle_message`:
`getAttr("xmlns")` (absent attribute gives `none`) and `getNamespace()`. -/
structure XMLNode where
  xmlnsAttr : Option String
  ns : String
deriving DecidableEq, Repr

/-- An inbound stanza as consumed by the handlers: type, sender, optional
body, child elements, and the error code (`getErrorCode`). -/
structure Message where
  mtype : String
  mfrom : JID
  body : Option String
  children : List XMLNode
  errorCode : String
deriving DecidableEq, Repr

/-- An outbound stanza handed to `self.client.send`. -/
inductive Stanza where
  /-- Stanza `xmpp.protocol.Message(dest, body, mtype)`; a `none` body is a
  message stanza without a body element, which is still transmitted. -/
  | message (dest : JID) (body : Option String) (mtype : String)
  /-- Stanza `xmpp.protocol.Presence(to, typ)`, destination rendered as a string. -/
  | presence (dest : String) (ptype : Option String)
deriving DecidableEq, Repr

/-- Python runtime exceptions raised by paths of the source. -/
inductive PyError where
  | nameError (n : String)
  | indexError
  | keyError (k : String)
deriving DecidableEq, Repr

/-! ## Dict model for `self.rooms`

`self.rooms` is a Python dict from room id `room@server` to the resource
label used there.  It is modelled as an association list without
duplicate keys: lookup takes the first match, assignment removes any old
binding, `pop` removes the binding. -/

/-- Dict lookup (`d[k]` / `k in d`). -/
def dictLookup (d : List (String × String)) (k : String) : Option String :=
  match d with
  | [] => none
  | (k2, v) :: rest => if k2 = k then some v else dictLookup rest k

/-- Dict assignment `d[k] = v`. -/
def dictInsert (d : List (String × String)) (k v : String) :
    List (String × String) :=
  (k, v) :: d.filter (fun p => if p.1 = k then false else true)

/-- Dict removal `d.pop(k)` (the mapping after removal; the source raises
`KeyError` when the key is absent, handled at the call site). -/
def dictPop (d : List (String × String)) (k : String) :
    List (String × String) :=
  d.filter (fun p => if p.1 = k then false else true)

/-! ## Bot state and handlers -/

/-- The mutable attributes of `WhistlerBot` that the verified operations
consult: the connection resource label, the `rooms` dict, the client
roster (`getRoster().getItems()`), the `_initial_users` set, and the
`client` field (an opaque handle, `none` before `connect`). -/
structure BotState where
  resource : String
  rooms : List (String × String)
  roster : List String
  initialUsers : List String
  client : Option Nat
deriving DecidableEq, Repr

/-- Result of running a command handler: the returned reply (`None`
becomes `none`) and any warnings it wrote to the log. -/
structure HandlerOut where
  reply : Option String
  warnings : List String

/-- A command handler: a bound method receiving the bot (`self`), the
originating message and the argument list. -/
def Handler : Type := BotState → Message → List String → HandlerOut

/-- Namespace constant `xmpp.NS_MUC_USER`. -/
def NS_MUC_USER : String := "http://jabber.org/protocol/muc#user"

/-- Namespace constant set at module level: `xmpp.NS_CONFERENCE`. -/
def NS_CONFERENCE : String := "jabber:x:conference"

/-- Child-element test of `handle_message` lines 318-319:
`node.getAttr("xmlns") == xmpp.NS_MUC_USER or node.getNamespace() ==
xmpp.NS_CONFERENCE` (a `None` attribute never equals a string). -/
def isMembershipNode (n : XMLNode) : Bool :=
  n.xmlnsAttr == some NS_MUC_USER || n.ns == NS_CONFERENCE

/-- Model of `is_validuser` (bot.py 254-267): room ids are never valid users; any
other address is valid exactly when it is in the client roster. -/
def is_validuser (st : BotState) (jid : String) : Bool :=
  if (st.rooms.map Prod.fst).contains jid then false
  else st.roster.contains jid

/-- The `restricted` decorator (bot.py 48-67).  `name` is
`fun.__name__[4:]`, the command name of the wrapped `cmd_` method.  On an
invalid user the inner handler is not called; a warning is logged and
`None` is returned. -/
def restricted (name : String) (f : Handler) : Handler :=
  fun st msg args =>
    let user := msg.mfrom.node ++ "@" ++ msg.mfrom.domain
    if is_validuser st user then f st msg args
    else
      { reply := none
        warnings := ["ignoring command " ++ name ++ ", invalid user " ++ user ++ "."] }

/-- Model of `register_command` (bot.py 219-228): `setattr(self, "cmd_%s" %
cmdname, cmdfun)`.  The attribute table is modelled as an association
list whose lookup (`getattr`) takes the most recent binding, so
prepending models overwriting. -/
def register_command (cmds : List (String × Handler)) (cmdname : String)
    (cmdfun : Handler) : List (String × Handler) :=
  ("cmd_" ++ cmdname, cmdfun) :: cmds

/-- Observable output of one `handle_message` call: stanzas sent, the
info-log records `(command name, arguments)` of line 356, warnings
logged, and the `(command name, arguments)` actually dispatched. -/
structure RouteOut where
  sent : List Stanza
  infoLogs : List (String × List String)
  warnLogs : List String
  dispatched : Option (String × List String)
deriving DecidableEq, Repr

/-- Output of a `handle_message` call that did nothing. -/
def emptyOut : RouteOut :=
  { sent := [], infoLogs := [], warnLogs := [], dispatched := none }

/-- Command-body parsing of `handle_message` lines 338-351.  Returns
`none` when there is nothing to handle (no body / not command-shaped);
otherwise the command name and arguments, or the `IndexError` Python
raises when `body.split()[1]` is out of range.  The source tests
`body[0] != COMMAND_CHAR and not startswith(resource + ", ") and not
startswith(resource + ": ")` and then branches again on
`body[0] == COMMAND_CHAR`; the two tests are fused into one cascade. -/
def parse_command (resource : String) (b : String) :
    Option (Except PyError (String × List String)) :=
  match b.data with
  | [] => none
  | c0 :: _ =>
    if c0 = '!' then
      some (match splitWS b with
        | [] => Except.error PyError.indexError
        | t :: rest => Except.ok (String.mk (t.data.drop 1), rest))
    else if strStarts b (resource ++ ", ") || strStarts b (resource ++ ": ") then
      some (match splitWS b with
        | _ :: t :: rest => Except.ok (t, rest)
        | _ => Except.error PyError.indexError)
    else
      none

/-- Model of `send` (bot.py 461-477): compute the destination from the original
sender, stripping the resource for a groupchat message, run the command,
and unconditionally send one message stanza carrying the command result
with the original message type. -/
def send (st : BotState) (message : Message) (command : Handler)
    (arguments : List String) : List Stanza × List String :=
  let dest := if message.mtype = "groupchat"
              then { message.mfrom with resource := "" } else message.mfrom
  let hout := command st message arguments
  ([Stanza.message dest hout.reply message.mtype], hout.warnings)

/-- Model of `handle_message` (bot.py 310-358).  `cmds` is the table of `cmd_*`
attributes of the bot (static methods and dynamic registrations).  The
membership-extension branch of the source (lines 321-327) reads
`msg.getFrom()`, but no name `msg` is in scope there (the parameter is
`message`), so Python raises `NameError` before `join_room` is reached. -/
def handle_message (cmds : List (String × Handler)) (st : BotState)
    (message : Message) : Except PyError RouteOut :=
  if message.children.any isMembershipNode = true then
    Except.error (PyError.nameError "msg")
  else if message.mtype = "groupchat" ∧
          dictLookup st.rooms message.mfrom.bare = some message.mfrom.resource then
    Except.ok emptyOut
  else
    match message.body with
    | none => Except.ok emptyOut
    | some b =>
      match parse_command st.resource b with
      | none => Except.ok emptyOut
      | some (Except.error e) => Except.error e
      | some (Except.ok (command_n, arguments)) =>
        match List.lookup ("cmd_" ++ command_n) cmds with
        | none => Except.ok emptyOut
        | some command =>
          let out := send st message command arguments
          Except.ok { sent := out.1
                      infoLogs := [(command_n, arguments)]
                      warnLogs := out.2
                      dispatched := some (command_n, arguments) }

/-- Observable outcome of one `handle_presence` call. -/
structure PresOut where
  sent : List Stanza
  initialUsers : List String
  registered : Option String
deriving DecidableEq, Repr

/-- Model of `handle_presence` (bot.py 289-307).  `who` is the sender address.  A
subscribe from an address outside `_initial_users` returns at once; a
subscribe from a pending address is answered with `subscribed` then
`subscribe`; a `subscribed` confirmation discards the address from the
pending set and fires `on_register_user`. -/
def handle_presence (st : BotState) (ptype : String) (who : String) : PresOut :=
  if ptype = "subscribe" ∧ ¬ st.initialUsers.contains who then
    { sent := [], initialUsers := st.initialUsers, registered := none }
  else
    let sent1 := if ptype = "subscribe" then
        [Stanza.presence who (some "subscribed"),
         Stanza.presence who (some "subscribe")]
      else []
    if ptype = "subscribed" then
      { sent := sent1
        initialUsers := st.initialUsers.filter (fun u => !(u == who))
        registered := some who }
    else
      { sent := sent1, initialUsers := st.initialUsers, registered := none }

/-! ## Room join state machine -/

/-- State of a join attempt, per §4.3's reading of the `join_room`
generator: suspended awaiting an event, or joined. -/
inductive JoinState where
  | Requesting (resource : String)
  | Joined (resource : String)
deriving DecidableEq, Repr

/-- Result of comparing a bound method object with a string in Python:
always `False`. -/
def boundMethodEqString : Bool := false

/-- The signal `handle_error` (bot.py 361-371) sends into the suspended
`join_room` generator for one inbound event.  The source guard is
`message.getType == "error" and msg.getErrorCode() == "409"`: `getType`
is not called (no parentheses), so a bound method is compared with a
string, which is always `False`; the right conjunct (which would raise
`NameError`, `msg` being undefined) is never evaluated.  Hence the else
branch runs and `True` (resolution) is sent for every event, conflict
events with error code 409 included. -/
def handle_error_signal (_message : Message) : Bool :=
  if boundMethodEqString = true then false else true

/-- The `join_room` generator loop (bot.py 391-417) run against a list
of signals, one per `.send` resumption: each iteration sends a
membership-request presence to `room@server/resource`, records the
room-to-resource mapping, and suspends; a `False` signal appends `"_"`
to the resource and retries, a `True` signal ends the loop as joined.
Returns the final rooms dict, the machine state, and the presences
sent. -/
def join_room_run (room server resource : String) (signals : List Bool)
    (rooms : List (String × String)) :
    List (String × String) × JoinState × List Stanza :=
  let rooms1 := dictInsert rooms (room ++ "@" ++ server) resource
  let pres := Stanza.presence (room ++ "@" ++ server ++ "/" ++ resource) none
  match signals with
  | [] => (rooms1, JoinState.Requesting resource, [pres])
  | s :: rest =>
    if s then (rooms1, JoinState.Joined resource, [pres])
    else
      let next := join_room_run room server (resource ++ "_") rest rooms1
      (next.1, next.2.1, pres :: next.2.2)

/-! ## Leaving rooms -/

/-- Python `room.split('@')` unpacked into two variables: `ValueError`
(here `none`) unless exactly one `@` is present. -/
def splitRoom (s : String) : Option (String × String) :=
  match splitChar '@' s with
  | [a, b] => some (a, b)
  | _ => none

/-- Model of `leave_room` (bot.py 445-458): resolve the resource (an absent or
empty argument is falsy, so `self.rooms[room_id]` is read, raising
`KeyError` when the room is not joined), send an unavailable presence to
`room@server/resource`, then `self.rooms.pop(room_id)` (which raises
`KeyError` when the key is absent).  Returns the stanzas sent before any
raise, and the new state or the exception. -/
def leave_room (st : BotState) (room server : String)
    (resourceArg : Option String) : List Stanza × Except PyError BotState :=
  let room_id := room ++ "@" ++ server
  let resolved : Except PyError String :=
    match resourceArg with
    | some r =>
      if r = "" then
        match dictLookup st.rooms room_id with
        | some v => Except.ok v
        | none => Except.error (PyError.keyError room_id)
      else Except.ok r
    | none =>
      match dictLookup st.rooms room_id with
      | some v => Except.ok v
      | none => Except.error (PyError.keyError room_id)
  match resolved with
  | Except.error e => ([], Except.error e)
  | Except.ok r =>
    let pres := [Stanza.presence (room_id ++ "/" ++ r) (some "unavailable")]
    match dictLookup st.rooms room_id with
    | none => (pres, Except.error (PyError.keyError room_id))
    | some _ => (pres, Except.ok { st with rooms := dictPop st.rooms room_id })

/-- Model of `leave` (bot.py 420-432): for each room string, a malformed id (not
exactly one `@`) is logged and skipped (`ValueError` caught); otherwise
an info line is logged and `leave_room` is called with no resource
argument.  A `KeyError` out of `leave_room` is not caught and aborts the
batch.  Returns stanzas sent, log lines in order, and the final state or
the uncaught exception. -/
def leave (st : BotState) (roomArgs : List String) :
    List Stanza × List String × Except PyError BotState :=
  match roomArgs with
  | [] => ([], [], Except.ok st)
  | r :: rest =>
    match splitRoom r with
    | none =>
      let next := leave st rest
      (next.1, ("invalid room to leave: " ++ r) :: next.2.1, next.2.2)
    | some (room, server) =>
      let info := "leaving room: " ++ room ++ "@" ++ server
      let one := leave_room st room server none
      match one.2 with
      | Except.error e => (one.1, [info], Except.error e)
      | Except.ok st1 =>
        let next := leave st1 rest
        (one.1 ++ next.1, info :: next.2.1, next.2.2)

/-! ## Connecting -/

/-- Observable outcome of a successful `connect` call: the returned
client handle, the state afterwards, the stanza handlers registered, and
what connection establishment did (initial presence, rooms joined,
initial users registered). -/
structure ConnOut where
  client : Nat
  state : BotState
  handlersRegistered : List String
  sentInitPresence : Bool
  joinedRooms : List String
  registeredUsers : List String
deriving DecidableEq, Repr

/-- Model of `connect` (bot.py 162-206).  When `self.client` is already set it is
returned at once and nothing else happens.  Otherwise the connection and
authentication outcomes of the external client are inputs (`connectOk`,
`authOk`), failure raising `WhistlerConnectionError` (the `error` case);
on success the handlers are registered, initial presence is sent, the
configured rooms are joined and the initial users registered. -/
def connect (st : BotState) (connectOk authOk : Bool) (freshClient : Nat) :
    Except String ConnOut :=
  match st.client with
  | some c =>
    Except.ok { client := c, state := st, handlersRegistered := []
                sentInitPresence := false, joinedRooms := [], registeredUsers := [] }
  | none =>
    if connectOk = false then Except.error "unable to connect"
    else if authOk = false then Except.error "unable to authorize"
    else
      Except.ok { client := freshClient
                  state := { st with client := some freshClient }
                  handlersRegistered := ["message", "presence"]
                  sentInitPresence := true
                  joinedRooms := st.rooms.map Prod.fst
                  registeredUsers := st.initialUsers }

/-! ## Concrete fixtures used by the witnesses and counterexamples -/

/-- A handler that returns `None` (no reply content). -/
def noopHandler : Handler := fun _ _ _ => { reply := none, warnings := [] }

/-- A handler that replies with a fixed string, like `cmd_ping`. -/
def pongHandler : Handler := fun _ _ _ => { reply := some "pong", warnings := [] }

/-- A handler whose reply depends on its arguments. -/
def echoHandler : Handler :=
  fun _ _ args => { reply := some (String.join args), warnings := [] }

/-- Inner handler of a privileged (`restricted`) command. -/
def pingInner : Handler := fun _ _ _ => { reply := some "pong", warnings := [] }

/-- Sender of ordinary chat messages in the examples. -/
def jAlice : JID := ⟨"alice", "example.com", "home"⟩

/-- Sender that is neither in the roster nor a room. -/
def jMallory : JID := ⟨"mallory", "evil.com", "x"⟩

/-- A bot state with resource `bot` and nothing configured. -/
def st0 : BotState := ⟨"bot", [], [], [], none⟩

/-- A bot state with one pending initial user. -/
def st7 : BotState := ⟨"bot", [], [], ["adm@example.com"], none⟩

/-- An already-connected bot state (client handle 7). -/
def st10 : BotState :=
  ⟨"bot", [("room1@conf.example.com", "bot")], ["adm@example.com"],
   ["adm@example.com"], some 7⟩

/-- A bot state joined to one room. -/
def stL : BotState := ⟨"bot", [("abc@conf.example.com", "bot")], [], [], none⟩

/-- The state after leaving that room. -/
def stL2 : BotState := ⟨"bot", [], [], [], none⟩

/-- A chat message invoking a command whose handler replies `None`. -/
def msgNoop : Message := ⟨"chat", jAlice, some "!noop", [], ""⟩

/-- A chat message invoking a restricted command from a stranger. -/
def msgPing : Message := ⟨"chat", jMallory, some "!ping", [], ""⟩

/-- A conflict event: error stanza with code 409 for the room. -/
def msg409 : Message := ⟨"error", ⟨"abc", "conf.example.com", ""⟩, none, [], "409"⟩

/-- A resolving event: ordinary presence for the room, no error code. -/
def msgResolved : Message := ⟨"presence", ⟨"abc", "conf.example.com", ""⟩, none, [], ""⟩

/-- A message carrying a MUC-user extension child (a room invitation). -/
def msgInvite : Message :=
  ⟨"normal", ⟨"room1", "conf.example.com", "alice"⟩, none,
   [⟨some NS_MUC_USER, "x"⟩], ""⟩

/-! ## Helper lemmas -/

/-- Appending distributes over the character data of a string. -/
theorem data_append (s t : String) : (s ++ t).data = s.data ++ t.data := rfl

/-- A list is an initial segment of itself followed by anything. -/
theorem listPrefixEq_self_append (p q : List Char) :
    listPrefixEq p (p ++ q) = true := by
  induction p with
  | nil => rfl
  | cons a as ih => simp [listPrefixEq, ih]

/-- An initial segment extended on the right stays an initial segment. -/
theorem listPrefixEq_append2 (x y z : List Char) :
    listPrefixEq (x ++ y) (x ++ (y ++ z)) = true := by
  induction x with
  | nil => exact listPrefixEq_self_append y z
  | cons a as ih => simp [listPrefixEq, ih]

/-- The bang test of the parser in terms of the body's first character. -/
theorem strStarts_bang (s : String) (c0 : Char) (tl : List Char)
    (h : s.data = c0 :: tl) : strStarts s "!" = ('!' == c0) := by
  have hb : ("!" : String).data = ['!'] := rfl
  rw [strStarts, hb, h]
  simp [listPrefixEq]

/-- A string whose data is a cons is not empty. -/
theorem ne_empty_of_data (s : String) (c0 : Char) (tl : List Char)
    (h : s.data = c0 :: tl) : ¬ s = "" := by
  intro he
  rw [he] at h
  exact List.noConfusion h

/-- Looking up a key right after popping it finds nothing. -/
theorem dictLookup_pop (d : List (String × String)) (k : String) :
    dictLookup (dictPop d k) k = none := by
  induction d with
  | nil => rfl
  | cons p rest ih =>
    by_cases h : p.1 = k
    · rw [show dictPop (p :: rest) k = dictPop rest k by
        simp [dictPop, List.filter_cons, h]]
      exact ih
    · rw [show dictPop (p :: rest) k = p :: dictPop rest k by
        simp [dictPop, List.filter_cons, h]]
      obtain ⟨k2, v⟩ := p
      simp only [dictLookup]
      rw [if_neg h]
      exact ih

/-! ## Claims -/

/-- C1: the spec claims N conflict-coded (409) events produce N `_`
suffixes before a resolving event yields `Joined`.  In the code,
`handle_error` compares the uncalled bound method `message.getType` with
`"error"`, which is always false, so every event — the 409 conflict
included — sends `True` (resolution) into the generator: one conflict
then one resolving event leaves the machine `Joined` with the original
resource `"bot"` and mapping `{"abc@conf.example.com": "bot"}`, not
`"bot_"`. -/
theorem join_conflict_first_event_resolves :
    handle_error_signal msg409 = true ∧
    join_room_run "abc" "conf.example.com" "bot"
        ([msg409, msgResolved].map handle_error_signal) []
      = ([("abc@conf.example.com", "bot")], JoinState.Joined "bot",
         [Stanza.presence "abc@conf.example.com/bot" none]) :=
  ⟨rfl, rfl⟩

/-- C2: a message carrying a MUC-user namespace child is classified as a
room-join trigger, but the branch then evaluates `msg.getFrom()` where
no name `msg` exists (the parameter is `message`), so Python raises
`NameError` and `join_room` is never started. -/
theorem membership_event_raises_name_error :
    handle_message [] st0 msgInvite = Except.error (PyError.nameError "msg") :=
  rfl

/-- C7: a subscribe presence from an address outside `_initial_users` is
ignored: no stanza is sent, the pending set is unchanged and no
registration callback fires. -/
theorem subscribe_from_stranger_ignored (st : BotState) (who : String)
    (h : st.initialUsers.contains who = false) :
    handle_presence st "subscribe" who
      = { sent := [], initialUsers := st.initialUsers, registered := none } := by
  have h2 : who ∉ st.initialUsers := by simpa using h
  simp [handle_presence, h2]

/-- C7 witness: concrete stranger against the pending set of `st7`. -/
theorem subscribe_from_stranger_ignored_witness :
    handle_presence st7 "subscribe" "bob@example.org"
      = { sent := [], initialUsers := ["adm@example.com"], registered := none } :=
  subscribe_from_stranger_ignored st7 "bob@example.org" (by decide)

/-- C10: when a client connection already exists, `connect` returns that
client at once: no connection, authentication, handler registration,
initial presence, room join or initial-user registration happens and the
state is unchanged. -/
theorem connect_idempotent (st : BotState) (cOk aOk : Bool)
    (fresh : Nat) (c : Nat) (h : st.client = some c) :
    connect st cOk aOk fresh
      = Except.ok { client := c, state := st, handlersRegistered := []
                    sentInitPresence := false, joinedRooms := []
                    registeredUsers := [] } := by
  simp [connect, h]

/-- C10 witness: a state already holding client handle 7. -/
theorem connect_idempotent_witness :
    connect st10 true true 9
      = Except.ok { client := 7, state := st10, handlersRegistered := []
                    sentInitPresence := false, joinedRooms := []
                    registeredUsers := [] } :=
  connect_idempotent st10 true true 9 7 rfl

/-- C3 counterexample: the claim says a reply is sent only when the
handler returns a non-empty result.  Here the handler returns `None`,
yet `send` still calls `client.send` with a message stanza (body `None`)
addressed to the sender: the sent list is not empty. -/
theorem reply_sent_despite_empty_result :
    (noopHandler st0 msgNoop []).reply = none ∧
    handle_message [("cmd_noop", noopHandler)] st0 msgNoop
      = Except.ok { sent := [Stanza.message jAlice none "chat"]
                    infoLogs := [("noop", [])], warnLogs := []
                    dispatched := some ("noop", []) } ∧
    [Stanza.message jAlice none "chat"] ≠ ([] : List Stanza) :=
  ⟨rfl, rfl, by simp⟩

/-- C3 (amended): the router invokes the handler with the original event
and the argument list and then always sends exactly one message stanza
carrying the handler's result — also when that result is empty — with
the original message type preserved and, for a groupchat message, the
resource component stripped from the destination. -/
theorem dispatch_always_sends_reply
    (cmds : List (String × Handler)) (st : BotState) (j : JID)
    (ec b cname mt : String) (args : List String) (f : Handler)
    (hparse : parse_command st.resource b = some (Except.ok (cname, args)))
    (hlook : List.lookup ("cmd_" ++ cname) cmds = some f)
    (hecho : ¬(mt = "groupchat" ∧
        dictLookup st.rooms (JID.bare j) = some j.resource)) :
    handle_message cmds st
        { mtype := mt, mfrom := j, body := some b, children := [], errorCode := ec }
      = Except.ok
          { sent := [Stanza.message
              (if mt = "groupchat" then { j with resource := "" } else j)
              (f st { mtype := mt, mfrom := j, body := some b, children := []
                      errorCode := ec } args).reply mt]
            infoLogs := [(cname, args)]
            warnLogs := (f st { mtype := mt, mfrom := j, body := some b
                                children := [], errorCode := ec } args).warnings
            dispatched := some (cname, args) } := by
  simp only [JID.bare] at hecho
  simp [handle_message, send, hparse, hlook, JID.bare]
  intro h1 h2
  exact absurd ⟨h1, h2⟩ hecho

/-- C3 witness: a chat command whose handler replies `pong`. -/
theorem dispatch_always_sends_reply_witness :
    handle_message [("cmd_ping", pongHandler)] st0
        { mtype := "chat", mfrom := jAlice, body := some "!ping"
          children := [], errorCode := "" }
      = Except.ok { sent := [Stanza.message jAlice (some "pong") "chat"]
                    infoLogs := [("ping", [])], warnLogs := []
                    dispatched := some ("ping", []) } :=
  dispatch_always_sends_reply [("cmd_ping", pongHandler)] st0 jAlice
    "" "!ping" "ping" "chat" [] pongHandler rfl rfl (by decide)

/-- C4 counterexample: a restricted command from a stranger logs the
warning and never runs the inner handler, but the claim's final part —
no reply is sent — fails: the dispatch path still sends a message stanza
(with no body) to the rejected sender. -/
theorem restricted_rejection_still_sends_stanza :
    handle_message [("cmd_ping", restricted "ping" pingInner)] st0 msgPing
      = Except.ok
          { sent := [Stanza.message jMallory none "chat"]
            infoLogs := [("ping", [])]
            warnLogs := ["ignoring command ping, invalid user mallory@evil.com."]
            dispatched := some ("ping", []) } ∧
    [Stanza.message jMallory none "chat"] ≠ ([] : List Stanza) :=
  ⟨rfl, by simp⟩

/-- C4 (amended): when the sender's bare address is a known room id or
is absent from the roster, the inner handler of a restricted command is
never invoked (the outcome is the same for every inner handler `f`) and
a warning naming the command and the address is logged; the dispatch
path still sends one bodyless message stanza to the sender. -/
theorem restricted_blocks_handler
    (cmds : List (String × Handler)) (st : BotState) (j : JID)
    (ec b cname mt : String) (args : List String) (f : Handler)
    (hparse : parse_command st.resource b = some (Except.ok (cname, args)))
    (hlook : List.lookup ("cmd_" ++ cname) cmds = some (restricted cname f))
    (hecho : ¬(mt = "groupchat" ∧
        dictLookup st.rooms (JID.bare j) = some j.resource))
    (hval : (st.rooms.map Prod.fst).contains (JID.bare j) = true ∨
            st.roster.contains (JID.bare j) = false) :
    handle_message cmds st
        { mtype := mt, mfrom := j, body := some b, children := [], errorCode := ec }
      = Except.ok
          { sent := [Stanza.message
              (if mt = "groupchat" then { j with resource := "" } else j) none mt]
            infoLogs := [(cname, args)]
            warnLogs := ["ignoring command " ++ cname ++ ", invalid user "
                          ++ JID.bare j ++ "."]
            dispatched := some (cname, args) } := by
  simp only [JID.bare] at hecho hval
  have hv : is_validuser st (j.node ++ "@" ++ j.domain) = false := by
    unfold is_validuser
    cases hval with
    | inl hr => rw [if_pos hr]
    | inr hr =>
      by_cases hc : (st.rooms.map Prod.fst).contains (j.node ++ "@" ++ j.domain) = true
      · rw [if_pos hc]
      · rw [if_neg hc]
        exact hr
  simp [handle_message, send, restricted, hparse, hlook, hv, JID.bare]
  intro h1 h2
  exact absurd ⟨h1, h2⟩ hecho

/-- C4 witness: the concrete stranger invocation of the counterexample,
obtained from the amended theorem. -/
theorem restricted_blocks_handler_witness :
    handle_message [("cmd_ping", restricted "ping" pingInner)] st0 msgPing
      = Except.ok
          { sent := [Stanza.message jMallory none "chat"]
            infoLogs := [("ping", [])]
            warnLogs := ["ignoring command ping, invalid user mallory@evil.com."]
            dispatched := some ("ping", []) } :=
  restricted_blocks_handler [("cmd_ping", restricted "ping" pingInner)] st0
    jMallory "" "!ping" "ping" "chat" [] pingInner rfl rfl (by decide)
    (Or.inr (by decide))

/-- C6 counterexample: after a successful leave the room is gone, but a
second leave of the same room is not a logged no-op: `leave` logs the
info line and then `leave_room` raises `KeyError` (uncaught, aborting
the batch), because `self.rooms[room_id]` no longer exists. -/
theorem second_leave_raises_key_error :
    leave_room stL "abc" "conf.example.com" none
      = ([Stanza.presence "abc@conf.example.com/bot" (some "unavailable")],
         Except.ok stL2) ∧
    leave stL2 ["abc@conf.example.com"]
      = ([], ["leaving room: abc@conf.example.com"],
         Except.error (PyError.keyError "abc@conf.example.com")) :=
  ⟨rfl, rfl⟩

/-- C6 (amended): after `leave_room` succeeds for a joined room the room
is absent from the rooms mapping, and a subsequent `leave_room` of that
same room raises `KeyError` (only malformed room identifiers are logged
and skipped by the batch `leave`). -/
theorem leave_room_removes_then_errors
    (st : BotState) (room server r : String)
    (h : dictLookup st.rooms (room ++ "@" ++ server) = some r) :
    leave_room st room server none
      = ([Stanza.presence (room ++ "@" ++ server ++ "/" ++ r) (some "unavailable")],
         Except.ok { st with rooms := dictPop st.rooms (room ++ "@" ++ server) })
    ∧ dictLookup (dictPop st.rooms (room ++ "@" ++ server))
        (room ++ "@" ++ server) = none
    ∧ leave_room { st with rooms := dictPop st.rooms (room ++ "@" ++ server) }
        room server none
      = ([], Except.error (PyError.keyError (room ++ "@" ++ server))) := by
  refine ⟨?_, dictLookup_pop _ _, ?_⟩
  · simp [leave_room, h]
  · simp [leave_room, dictLookup_pop]

/-- C6 witness: the joined state `stL` for room `abc@conf.example.com`. -/
theorem leave_room_removes_then_errors_witness :
    leave_room stL "abc" "conf.example.com" none
      = ([Stanza.presence ("abc" ++ "@" ++ "conf.example.com" ++ "/" ++ "bot")
            (some "unavailable")],
         Except.ok { stL with
            rooms := dictPop stL.rooms ("abc" ++ "@" ++ "conf.example.com") })
    ∧ dictLookup (dictPop stL.rooms ("abc" ++ "@" ++ "conf.example.com"))
        ("abc" ++ "@" ++ "conf.example.com") = none
    ∧ leave_room { stL with
          rooms := dictPop stL.rooms ("abc" ++ "@" ++ "conf.example.com") }
        "abc" "conf.example.com" none
      = ([], Except.error (PyError.keyError ("abc" ++ "@" ++ "conf.example.com"))) :=
  leave_room_removes_then_errors stL "abc" "conf.example.com" "bot" rfl

/-- C8 counterexample: the body consisting of the bot's resource label
and the address separator with nothing after it starts with
`"<resource>, "` (so it parses as a command) and no handler is involved,
yet `handle_message` raises `IndexError` at `body.split()[1]` instead of
discarding the event. -/
theorem resource_only_body_raises :
    handle_message [] st0
        { mtype := "chat", mfrom := jAlice, body := some "bot, "
          children := [], errorCode := "" }
      = Except.error PyError.indexError :=
  rfl

/-- C8 (amended): a body that parses as a command and yields a command
name with no registered handler is discarded silently — no stanza, no
log, no exception; but a body that is only the resource-address prefix
with no command token raises `IndexError`. -/
theorem unknown_command_silent
    (cmds : List (String × Handler)) (st : BotState) (j : JID)
    (ec b cname mt : String) (args : List String)
    (hparse : parse_command st.resource b = some (Except.ok (cname, args)))
    (hlook : List.lookup ("cmd_" ++ cname) cmds = none) :
    handle_message cmds st
        { mtype := mt, mfrom := j, body := some b, children := [], errorCode := ec }
      = Except.ok emptyOut := by
  simp [handle_message, hparse, hlook]

/-- C8 witness: an unregistered command name `frob` in a chat message. -/
theorem unknown_command_silent_witness :
    handle_message [] st0
        { mtype := "chat", mfrom := jAlice, body := some "!frob"
          children := [], errorCode := "" }
      = Except.ok emptyOut :=
  unknown_command_silent [] st0 jAlice "" "!frob" "frob" "chat" [] rfl rfl

/-- C5: for a registered command `c`, a body `!c a1 a2` dispatches the
handler of `c` with arguments `[a1, a2]` (the prefix stripped, remaining
whitespace tokens as arguments), and a body `<resource>, c a1`
dispatches the same handler with arguments `[a1]`.  The tokenisation
facts about the two bodies are hypotheses, true whenever the resource,
the command name and the arguments are single whitespace-free tokens. -/
theorem command_parse_dispatch
    (cmds : List (String × Handler)) (st : BotState) (j : JID) (ec : String)
    (c a1 a2 : String) (f : Handler) (r0 : Char) (rt : List Char)
    (hlook : List.lookup ("cmd_" ++ c) cmds = some f)
    (hsplit1 : splitWS ("!" ++ c ++ " " ++ a1 ++ " " ++ a2) = ["!" ++ c, a1, a2])
    (hres : st.resource.data = r0 :: rt)
    (hr0 : ¬ r0 = '!')
    (hsplit2 : splitWS (st.resource ++ ", " ++ c ++ " " ++ a1)
        = [st.resource ++ ",", c, a1]) :
    handle_message cmds st
        { mtype := "chat", mfrom := j
          body := some ("!" ++ c ++ " " ++ a1 ++ " " ++ a2)
          children := [], errorCode := ec }
      = Except.ok
          { sent := [Stanza.message j
              (f st { mtype := "chat", mfrom := j
                      body := some ("!" ++ c ++ " " ++ a1 ++ " " ++ a2)
                      children := [], errorCode := ec } [a1, a2]).reply "chat"]
            infoLogs := [(c, [a1, a2])]
            warnLogs := (f st { mtype := "chat", mfrom := j
                                body := some ("!" ++ c ++ " " ++ a1 ++ " " ++ a2)
                                children := [], errorCode := ec } [a1, a2]).warnings
            dispatched := some (c, [a1, a2]) }
    ∧
    handle_message cmds st
        { mtype := "chat", mfrom := j
          body := some (st.resource ++ ", " ++ c ++ " " ++ a1)
          children := [], errorCode := ec }
      = Except.ok
          { sent := [Stanza.message j
              (f st { mtype := "chat", mfrom := j
                      body := some (st.resource ++ ", " ++ c ++ " " ++ a1)
                      children := [], errorCode := ec } [a1]).reply "chat"]
            infoLogs := [(c, [a1])]
            warnLogs := (f st { mtype := "chat", mfrom := j
                                body := some (st.resource ++ ", " ++ c ++ " " ++ a1)
                                children := [], errorCode := ec } [a1]).warnings
            dispatched := some (c, [a1]) } := by
  constructor
  · have h0 : parse_command st.resource ("!" ++ c ++ " " ++ a1 ++ " " ++ a2)
        = some (match splitWS ("!" ++ c ++ " " ++ a1 ++ " " ++ a2) with
            | [] => Except.error PyError.indexError
            | t :: rest => Except.ok (String.mk (t.data.drop 1), rest)) := rfl
    have hp1 : parse_command st.resource ("!" ++ c ++ " " ++ a1 ++ " " ++ a2)
        = some (Except.ok (c, [a1, a2])) := by
      rw [h0, hsplit1]
      rfl
    simp [handle_message, send, hp1, hlook]
  · have hres2 : st.resource = String.mk (r0 :: rt) := congrArg String.mk hres
    have hstart : strStarts (String.mk (r0 :: rt) ++ ", " ++ c ++ " " ++ a1)
        (String.mk (r0 :: rt) ++ ", ") = true := by
      show listPrefixEq (String.mk (r0 :: rt) ++ ", ").data
          ((String.mk (r0 :: rt) ++ ", " ++ c ++ " " ++ a1).data) = true
      simp only [data_append, List.append_assoc]
      exact listPrefixEq_append2 _ _ _
    have hp2 : parse_command st.resource (st.resource ++ ", " ++ c ++ " " ++ a1)
        = some (Except.ok (c, [a1])) := by
      rw [hres2] at hsplit2 ⊢
      have h1 : parse_command (String.mk (r0 :: rt))
          (String.mk (r0 :: rt) ++ ", " ++ c ++ " " ++ a1)
        = (if r0 = '!' then
            some (match splitWS (String.mk (r0 :: rt) ++ ", " ++ c ++ " " ++ a1) with
              | [] => Except.error PyError.indexError
              | t :: rest => Except.ok (String.mk (t.data.drop 1), rest))
          else if strStarts (String.mk (r0 :: rt) ++ ", " ++ c ++ " " ++ a1)
                (String.mk (r0 :: rt) ++ ", ")
              || strStarts (String.mk (r0 :: rt) ++ ", " ++ c ++ " " ++ a1)
                (String.mk (r0 :: rt) ++ ": ") then
            some (match splitWS (String.mk (r0 :: rt) ++ ", " ++ c ++ " " ++ a1) with
              | _ :: t :: rest => Except.ok (t, rest)
              | _ => Except.error PyError.indexError)
          else none) := rfl
      rw [h1, if_neg hr0, hstart]
      simp only [Bool.true_or, if_true]
      rw [hsplit2]
    simp [handle_message, send, hp2, hlook]

/-- C5 witness: `!echo a1 a2` and `bot, echo a1` against a registered
`echo` handler. -/
theorem command_parse_dispatch_witness :
    handle_message [("cmd_echo", echoHandler)] st0
        { mtype := "chat", mfrom := jAlice, body := some "!echo a1 a2"
          children := [], errorCode := "" }
      = Except.ok { sent := [Stanza.message jAlice (some "a1a2") "chat"]
                    infoLogs := [("echo", ["a1", "a2"])], warnLogs := []
                    dispatched := some ("echo", ["a1", "a2"]) }
    ∧
    handle_message [("cmd_echo", echoHandler)] st0
        { mtype := "chat", mfrom := jAlice, body := some "bot, echo a1"
          children := [], errorCode := "" }
      = Except.ok { sent := [Stanza.message jAlice (some "a1") "chat"]
                    infoLogs := [("echo", ["a1"])], warnLogs := []
                    dispatched := some ("echo", ["a1"]) } :=
  command_parse_dispatch [("cmd_echo", echoHandler)] st0 jAlice "" "echo"
    "a1" "a2" echoHandler 'b' ['o', 't'] rfl (by decide) rfl (by decide)
    (by decide)

/-- C9: registering the same command name twice leaves only the second
handler active — the lookup used by dispatch returns the second handler,
and `handle_message` on `!name` immediately invokes it. -/
theorem register_overwrite_active
    (cmds : List (String × Handler)) (st : BotState) (j : JID)
    (ec name : String) (f g : Handler)
    (hsplit : splitWS ("!" ++ name) = ["!" ++ name]) :
    List.lookup ("cmd_" ++ name)
        (register_command (register_command cmds name f) name g) = some g ∧
    handle_message (register_command (register_command cmds name f) name g) st
        { mtype := "chat", mfrom := j, body := some ("!" ++ name)
          children := [], errorCode := ec }
      = Except.ok
          { sent := [Stanza.message j
              (g st { mtype := "chat", mfrom := j, body := some ("!" ++ name)
                      children := [], errorCode := ec } []).reply "chat"]
            infoLogs := [(name, [])]
            warnLogs := (g st { mtype := "chat", mfrom := j
                                body := some ("!" ++ name), children := []
                                errorCode := ec } []).warnings
            dispatched := some (name, []) } := by
  have hl : List.lookup ("cmd_" ++ name)
      (register_command (register_command cmds name f) name g) = some g := by
    simp [register_command, List.lookup]
  refine ⟨hl, ?_⟩
  have h0 : parse_command st.resource ("!" ++ name)
      = some (match splitWS ("!" ++ name) with
          | [] => Except.error PyError.indexError
          | t :: rest => Except.ok (String.mk (t.data.drop 1), rest)) := rfl
  have hp : parse_command st.resource ("!" ++ name)
      = some (Except.ok (name, [])) := by
    rw [h0, hsplit]
    rfl
  simp [handle_message, send, hp, hl]

/-- C9 witness: `hello` registered first with `pongHandler`, then with
`echoHandler`; the dispatch runs `echoHandler` (whose reply on no
arguments is the empty string, not `pong`). -/
theorem register_overwrite_active_witness :
    List.lookup ("cmd_" ++ "hello")
        (register_command (register_command [] "hello" pongHandler)
          "hello" echoHandler) = some echoHandler ∧
    handle_message
        (register_command (register_command [] "hello" pongHandler)
          "hello" echoHandler) st0
        { mtype := "chat", mfrom := jAlice, body := some "!hello"
          children := [], errorCode := "" }
      = Except.ok { sent := [Stanza.message jAlice (some "") "chat"]
                    infoLogs := [("hello", [])], warnLogs := []
                    dispatched := some ("hello", []) } :=
  register_overwrite_active [] st0 jAlice "" "hello" pongHandler echoHandler rfl

end Whistler
